import Mathlib

/-!
Verification of the validation / derivation / rendering pipeline of the
`devOpsPj` report generators (`script.py`, the chat-session variant, and
`financial_report.py`, the financial variant).

Modelling conventions:
* Python scalars passed to `validate_inputs` are modelled by `PyVal`
  (int, bool, float, str).  Python floats are modelled as exact rationals;
  `isinstance(x, int)` is true for Python bools, and `==` between numeric
  values (including bools) compares their numeric value, as in Python.
* Division and the `0.3` threshold are modelled over `ℚ`.
* File writing, stdout, stderr and the `logging` module are modelled by
  recording the written content in outcome structures; the wall-clock
  timestamps taken by `datetime.now()` are explicit string parameters.
-/

/-- Model of a Python scalar value as received by `validate_inputs`
(`script.py`, line 12) when called directly. -/
inductive PyVal where
  | int (n : ℤ)
  | bool (b : Bool)
  | float (q : ℚ)
  | str (s : String)

/-- The integer content of a value for which Python's `isinstance(x, int)`
holds: actual ints, and bools (`True` is `1`, `False` is `0`, since `bool`
subclasses `int` in Python).  `none` for floats and strings. -/
def PyVal.asInt? : PyVal → Option ℤ
  | .int n => some n
  | .bool b => some (if b then 1 else 0)
  | _ => none

/-- Python's `isinstance(x, int)`: true exactly for ints and bools. -/
def PyVal.isIntLike (v : PyVal) : Bool := v.asInt?.isSome

/-- The integer content with default `0`; only meaningful after the
`isinstance` checks have passed. -/
def PyVal.asIntD (v : PyVal) : ℤ := v.asInt?.getD 0

/-- The numeric value of a Python scalar, when it has one (ints, bools and
floats are all numbers for `==` in Python; strings are not). -/
def PyVal.toRat? : PyVal → Option ℚ
  | .int n => some (n : ℚ)
  | .bool b => some (if b then 1 else 0)
  | .float q => some q
  | .str _ => none

/-- Python `==` between scalars: numeric values compare by value (so
`1 == True` and `0 == False`), strings compare as strings, and a number is
never equal to a string. -/
def pyEq (a b : PyVal) : Bool :=
  match a.toRat?, b.toRat? with
  | some x, some y => x == y
  | _, _ =>
    match a, b with
    | .str s, .str t => s == t
    | _, _ => false

/-- The `MAX_REASONABLE` constant of `validate_inputs` (`script.py` line 41). -/
def MAX_REASONABLE : ℤ := 1000000

/-- Embedding of `validate_inputs` (`script.py` lines 12-70).  The Python
function is a sequence of early-return checks; it is rendered as the
equivalent if/else chain, in the source's order: the four `isinstance`
checks, the three `>= 0` checks, the four `MAX_REASONABLE` upper-bound
checks, the two cross-field checks, the `session_time > 0` check, and the
`cta_left` boolean membership check. -/
def validate_inputs (user_messages ai_responses validation_errors cta_left session_time : PyVal) :
    Bool × String :=
  match user_messages.asInt? with
  | none => (false, "user_messages must be an integer")
  | some um =>
  match ai_responses.asInt? with
  | none => (false, "ai_responses must be an integer")
  | some ar =>
  match validation_errors.asInt? with
  | none => (false, "validation_errors must be an integer")
  | some ve =>
  match session_time.asInt? with
  | none => (false, "session_time must be an integer")
  | some st =>
  if um < 0 then (false, "user_messages must be >= 0")
  else if ar < 0 then (false, "ai_responses must be >= 0")
  else if ve < 0 then (false, "validation_errors must be >= 0")
  else if um > MAX_REASONABLE then (false, "user_messages must be <= 1000000")
  else if ar > MAX_REASONABLE then (false, "ai_responses must be <= 1000000")
  else if ve > MAX_REASONABLE then (false, "validation_errors must be <= 1000000")
  else if st > MAX_REASONABLE then (false, "session_time must be <= 1000000")
  else if ar > um then (false, "ai_responses must be <= user_messages")
  else if ve > um then (false, "validation_errors must be <= user_messages")
  else if st ≤ 0 then (false, "session_time must be > 0")
  else if !(pyEq cta_left (.bool true) || pyEq cta_left (.bool false)) then
    (false, "cta_left must be true or false")
  else (true, "")

/-- Embedding of `calculate_error_rate` (`script.py` lines 73-86); Python's
float division of two ints is modelled as exact division in `ℚ`. -/
def calculate_error_rate (validation_errors user_messages : ℤ) : ℚ :=
  if user_messages = 0 then 0
  else (validation_errors : ℚ) / (user_messages : ℚ)

/-- Embedding of `determine_status` (`script.py` lines 89-109); the float
literal `0.3` is modelled as the rational `3/10`. -/
def determine_status (error_rate : ℚ) (cta_left : Bool) : String :=
  let status := if error_rate > 3/10 then "Problematic" else "OK"
  if cta_left then status ++ " (CTA left)" else status

/-- On four integer arguments `validate_inputs` reduces to its if/else
chain (the `isinstance` checks all pass). -/
lemma validate_inputs_int (um ar ve st : ℤ) (cta : PyVal) :
    validate_inputs (.int um) (.int ar) (.int ve) cta (.int st) =
      (if um < 0 then (false, "user_messages must be >= 0")
      else if ar < 0 then (false, "ai_responses must be >= 0")
      else if ve < 0 then (false, "validation_errors must be >= 0")
      else if um > MAX_REASONABLE then (false, "user_messages must be <= 1000000")
      else if ar > MAX_REASONABLE then (false, "ai_responses must be <= 1000000")
      else if ve > MAX_REASONABLE then (false, "validation_errors must be <= 1000000")
      else if st > MAX_REASONABLE then (false, "session_time must be <= 1000000")
      else if ar > um then (false, "ai_responses must be <= user_messages")
      else if ve > um then (false, "validation_errors must be <= user_messages")
      else if st ≤ 0 then (false, "session_time must be > 0")
      else if !(pyEq cta (.bool true) || pyEq cta (.bool false)) then
        (false, "cta_left must be true or false")
      else (true, "")) := rfl

/-- A genuine Python bool always passes the `cta_left not in [True, False]`
membership check. -/
lemma ctaCheck_bool (c : Bool) :
    (pyEq (.bool c) (.bool true) || pyEq (.bool c) (.bool false)) = true := by
  cases c <;> rfl

set_option maxHeartbeats 2000000 in
/-- Characterisation of acceptance by `validate_inputs` on integer fields
and a boolean `cta_left`. -/
lemma validate_ints_accept_iff (um ar ve st : ℤ) (c : Bool) :
    (validate_inputs (.int um) (.int ar) (.int ve) (.bool c) (.int st)).1 = true ↔
      0 ≤ um ∧ 0 ≤ ar ∧ 0 ≤ ve ∧ um ≤ 1000000 ∧ ar ≤ 1000000 ∧ ve ≤ 1000000 ∧
      st ≤ 1000000 ∧ ar ≤ um ∧ ve ≤ um ∧ 0 < st := by
  rw [validate_inputs_int]
  simp only [ctaCheck_bool, Bool.not_true, MAX_REASONABLE]
  split_ifs <;> simp_all

/-- Rounding to the nearest integer with ties to even, the rounding used by
Python's fixed-point `format` specifiers (floats being modelled as exact
rationals). -/
def roundHalfEven (q : ℚ) : ℤ :=
  let f := ⌊q⌋
  if q - f < 1/2 then f
  else if 1/2 < q - f then f + 1
  else if f % 2 = 0 then f else f + 1

/-- Python's `"{:.2f}".format(x)`: sign, integer part, and exactly two
fractional digits after rounding half-to-even at two decimals. -/
def fmtFixed2 (q : ℚ) : String :=
  (if q < 0 then "-" else "") ++ toString ((roundHalfEven (|q| * 100)).toNat / 100) ++ "." ++
    (toString ((roundHalfEven (|q| * 100)).toNat / 10 % 10) ++
      toString ((roundHalfEven (|q| * 100)).toNat % 10))

/-- Python's `"{:.1f}".format(x)`: sign, integer part, and exactly one
fractional digit after rounding half-to-even at one decimal. -/
def fmtFixed1 (q : ℚ) : String :=
  (if q < 0 then "-" else "") ++ toString ((roundHalfEven (|q| * 10)).toNat / 10) ++ "." ++
    toString ((roundHalfEven (|q| * 10)).toNat % 10)

/-- Digits of the integer part grouped in threes from the right (the
grouping underlying the `,` format option); input is the reversed digit
list, output the groups least-significant first. -/
def chunksOf3 : List Char → List (List Char)
  | [] => []
  | a :: b :: c :: rest => [a, b, c] :: chunksOf3 rest
  | l => [l]

/-- Thousands grouping of a digit string: a comma between every group of
three digits, counted from the right. -/
def commaGroup (s : String) : String :=
  String.intercalate "," (((chunksOf3 s.toList.reverse).map
    (fun g => String.mk g.reverse)).reverse)

/-- Python's `"{:,.2f}".format(x)`: like `fmtFixed2` but with thousands
separators in the integer part. -/
def fmtComma2 (q : ℚ) : String :=
  (if q < 0 then "-" else "") ++
    commaGroup (toString ((roundHalfEven (|q| * 100)).toNat / 100)) ++ "." ++
    (toString ((roundHalfEven (|q| * 100)).toNat / 10 % 10) ++
      toString ((roundHalfEven (|q| * 100)).toNat % 10))

/-- Python's `"{:.2%}"` / f-string `:.2%` format: the value times 100,
rendered with two decimal places, followed by a percent sign. -/
def fmtPct2 (q : ℚ) : String := fmtFixed2 (q * 100) ++ "%"

/-- Python's `str()` of a bool, as interpolated by f-strings. -/
def pyBoolStr (b : Bool) : String := if b then "True" else "False"

/-- Python's `str()` of a float, modelled on exact rationals: integral
values render with a trailing `.0`, as Python prints them.  (Only used
inside log and error message text whose exact digits no claim depends on.) -/
def pyFloatStr (q : ℚ) : String :=
  if q.den = 1 then toString q.num ++ ".0" else toString q.num ++ "/" ++ toString q.den

/-- Python's `str.lower`, applied characterwise. -/
def pyLower (s : String) : String := String.mk (s.data.map Char.toLower)

/-- The contents of `log.txt` produced by `create_log_file` (`script.py`
lines 112-145), as the ordered list of template fragments and interpolated
values of its f-string; the file content is their concatenation.  `ts` is
the `datetime.now()` timestamp string. -/
def create_log_chunks (user_messages ai_responses validation_errors : ℤ) (cta_left : Bool)
    (session_time : ℤ) (error_rate : ℚ) (status ts : String) : List String :=
  ["Chat Session Report\nGenerated: ", ts,
   "\n\nInput Values:\n- User Messages: ", toString user_messages,
   "\n- AI Responses: ", toString ai_responses,
   "\n- Validation Errors: ", toString validation_errors,
   "\n- CTA Left: ", pyBoolStr cta_left,
   "\n- Session Time: ", toString session_time,
   " minutes\n\nCalculations:\n- Error Rate: ", fmtPct2 error_rate,
   " (", toString validation_errors, "/", toString user_messages,
   ")\n\nFinal Status: ", status, "\n"]

/-- The byte content of `log.txt`. -/
def create_log_content (user_messages ai_responses validation_errors : ℤ) (cta_left : Bool)
    (session_time : ℤ) (error_rate : ℚ) (status ts : String) : String :=
  String.join (create_log_chunks user_messages ai_responses validation_errors cta_left
    session_time error_rate status ts)

/-- The `status_color` computation of `create_html_file` (`script.py` line
167): Python's substring test `"Problematic" in status`. -/
def status_color (status : String) : String :=
  if "Problematic".data <:+: status.data then "#e74c3c" else "#2ecc71"

/-- Static text of the session template from its start through the CSS up
to the `status_color` interpolation (`script.py` lines 169-409); the CSS
body, opaque literal text per the rendering contract, is abbreviated. -/
def sessionLitHead : String :=
  "<!DOCTYPE html>\n<html lang=\"en\">\n<head>\n    <meta charset=\"UTF-8\">\n    <meta name=\"viewport\" content=\"width=device-width, initial-scale=1.0\">\n    <title>Chat Session Execution Report</title>\n    <style>\n        [static CSS, script.py lines 175-408]\n            background-color: "

/-- Static text between the `status_color` and `timestamp` interpolations
(`script.py` lines 409-440); the remaining CSS is abbreviated. -/
def sessionLitPostColor : String :=
  ";\n            [static CSS, script.py lines 410-430]\n    </style>\n</head>\n<body>\n    <div class=\"container\">\n        <div class=\"status-banner\">\n            [check mark] Build Verified by Jenkins\n        </div>\n        \n        <div class=\"header\">\n            <h1>Chat Analytics</h1>\n            <p>Report Generated: "

/-- Static text between the `timestamp` and first `user_messages`
interpolations (`script.py` lines 440-446). -/
def sessionLitPostTs : String :=
  "</p>\n        </div>\n        \n        <div class=\"kpi-grid\">\n            <div class=\"kpi-card user-messages\">\n                <h3>User Messages</h3>\n                <div class=\"value\">"

/-- Static text before the `ai_responses` KPI value (`script.py` lines 446-452). -/
def sessionLitKpi2 : String :=
  "</div>\n                <p class=\"description\">Active engagement metrics</p>\n            </div>\n            \n            <div class=\"kpi-card ai-responses\">\n                <h3>AI Responses</h3>\n                <div class=\"value\">"

/-- Static text before the `validation_errors` KPI value (`script.py` lines 452-458). -/
def sessionLitKpi3 : String :=
  "</div>\n                <p class=\"description\">Automated intelligence flow</p>\n            </div>\n            \n            <div class=\"kpi-card validation-errors\">\n                <h3>Validation Errors</h3>\n                <div class=\"value\">"

/-- Static text between the KPI grid and the details table's first value
(`script.py` lines 458-475). -/
def sessionLitDetails : String :=
  "</div>\n                <p class=\"description\">System integrity checks</p>\n            </div>\n        </div>\n        \n        <div class=\"details-section\">\n            <h2>Session Intelligence</h2>\n            <table class=\"details-table\">\n                <thead>\n                    <tr>\n                        <th>Metric</th>\n                        <th>Analysis</th>\n                    </tr>\n                </thead>\n                <tbody>\n                    <tr>\n                        <td><strong>Total Conversations</strong></td>\n                        <td>"

/-- Static text before the `ai_responses` table value (`script.py` lines 475-479). -/
def sessionLitRow2 : String :=
  " manual messages</td>\n                    </tr>\n                    <tr>\n                        <td><strong>AI Participation</strong></td>\n                        <td>"

/-- Static text before the `validation_errors` table value (`script.py` lines 479-483). -/
def sessionLitRow3 : String :=
  " generated replies</td>\n                    </tr>\n                    <tr>\n                        <td><strong>System Validation</strong></td>\n                        <td>"

/-- Static text before the CTA table value (`script.py` lines 483-487). -/
def sessionLitRow4 : String :=
  " exceptions caught</td>\n                    </tr>\n                    <tr>\n                        <td><strong>Call to Action</strong></td>\n                        <td>"

/-- Static text before the `session_time` table value (`script.py` lines 487-491). -/
def sessionLitRow5 : String :=
  "</td>\n                    </tr>\n                    <tr>\n                        <td><strong>Interaction Time</strong></td>\n                        <td>"

/-- Static text before the `error_rate` table value (`script.py` lines 491-495). -/
def sessionLitRow6 : String :=
  " minutes active</td>\n                    </tr>\n                    <tr>\n                        <td><strong>Performance Ratio</strong></td>\n                        <td>"

/-- Static text before the `status` badge value (`script.py` lines 495-499). -/
def sessionLitRow7 : String :=
  " error rate</td>\n                    </tr>\n                    <tr>\n                        <td><strong>Final Health Score</strong></td>\n                        <td><span class=\"status-badge\">"

/-- Static text from the `status` badge to the end of the session
template (`script.py` lines 499-511). -/
def sessionLitTail : String :=
  "</span></td>\n                    </tr>\n                </tbody>\n            </table>\n        </div>\n    \n        <div class=\"jenkins-banner\">\n            Securely processed on Jenkins Build Node\n        </div>\n    </div>\n</body>\n</html>\n"

/-- The contents of `result.html` produced by `create_html_file`
(`script.py` lines 148-514), as the ordered list of template fragments
and interpolated values of its f-string; the file content is their
concatenation.  `ts` is the `datetime.now()` timestamp string. -/
def create_html_chunks (user_messages ai_responses validation_errors : ℤ) (cta_left : Bool)
    (session_time : ℤ) (error_rate : ℚ) (status ts : String) : List String :=
  [sessionLitHead, status_color status, sessionLitPostColor, ts, sessionLitPostTs,
   toString user_messages, sessionLitKpi2, toString ai_responses, sessionLitKpi3,
   toString validation_errors, sessionLitDetails,
   toString user_messages, sessionLitRow2, toString ai_responses, sessionLitRow3,
   toString validation_errors, sessionLitRow4,
   (if cta_left then "Pending Action" else "Completed"), sessionLitRow5,
   toString session_time, sessionLitRow6,
   fmtPct2 error_rate, sessionLitRow7, status, sessionLitTail]

/-- The byte content of `result.html`. -/
def create_html_content (user_messages ai_responses validation_errors : ℤ) (cta_left : Bool)
    (session_time : ℤ) (error_rate : ℚ) (status ts : String) : String :=
  String.join (create_html_chunks user_messages ai_responses validation_errors cta_left
    session_time error_rate status ts)

/-- Static text of the financial template from its start through the
title interpolation (`financial_report.py` lines 15-21). -/
def finLitHead : String :=
  "\n    <!DOCTYPE html>\n    <html lang=\"en\">\n    <head>\n        <meta charset=\"UTF-8\">\n        <meta name=\"viewport\" content=\"width=device-width, initial-scale=1.0\">\n        <title>Financial Report - "

/-- Static text between the title and the body `name` interpolation
(`financial_report.py` lines 21-84); the CSS body is abbreviated. -/
def finLitAfterTitle : String :=
  "</title>\n        <style>\n            [static CSS, financial_report.py lines 23-76]\n        </style>\n    </head>\n    <body>\n        <div class=\"card\">\n            <h1>Financial Report</h1>\n            \n            <div class=\"stat-row\">\n                <span class=\"label\">Name:</span>\n                <span class=\"value\">"

/-- Static text between the `name` and `date` values (`financial_report.py` lines 84-88). -/
def finLitAfterName : String :=
  "</span>\n            </div>\n            <div class=\"stat-row\">\n                <span class=\"label\">Date:</span>\n                <span class=\"value\">"

/-- Static text between the `date` and `salary` values; ends with the
literal dollar sign preceding the salary (`financial_report.py` lines 88-93). -/
def finLitAfterDate : String :=
  "</span>\n            </div>\n            \n            <div class=\"stat-row\">\n                <span class=\"label\">Income:</span>\n                <span class=\"value\">$"

/-- Static text between the `salary` and `expenses` values
(`financial_report.py` lines 93-97). -/
def finLitAfterIncome : String :=
  "</span>\n            </div>\n            <div class=\"stat-row\">\n                <span class=\"label\">Expenses:</span>\n                <span class=\"value\">$"

/-- Static text between the `expenses` and `savings` values
(`financial_report.py` lines 97-105). -/
def finLitAfterExpenses : String :=
  "</span>\n            </div>\n            \n            <hr>\n            \n            <div class=\"savings-section\">\n                <div class=\"stat-row\">\n                    <span class=\"label\">Monthly Savings:</span>\n                    <span class=\"value success\">$"

/-- Static text between the `savings` and `savings_percentage` values
(`financial_report.py` lines 105-109). -/
def finLitAfterSavings : String :=
  "</span>\n                </div>\n                 <div class=\"stat-row\" style=\"margin-bottom: 0;\">\n                    <span class=\"label\">Savings Percentage:</span>\n                    <span class=\"value success\">"

/-- Static text from after the percent sign to the end of the financial
template (`financial_report.py` lines 109-119). -/
def finLitTail : String :=
  "</span>\n                </div>\n            </div>\n            \n            <div class=\"footer\">\n                Generated automatically via DevOps Pipeline\n            </div>\n        </div>\n    </body>\n    </html>\n    "

/-- The contents of `generated_report.html` produced by `generate_html`
(`financial_report.py` lines 13-135), as the ordered list of template
fragments and interpolated values; the file content is their
concatenation.  There is no timestamp: the date is the `--date` argument. -/
def generate_html_chunks (name date : String) (salary expenses savings savings_percentage : ℚ) :
    List String :=
  [finLitHead, name, finLitAfterTitle, name, finLitAfterName, date,
   finLitAfterDate, fmtComma2 salary, finLitAfterIncome, fmtComma2 expenses,
   finLitAfterExpenses, fmtComma2 savings, finLitAfterSavings,
   fmtFixed1 savings_percentage, "%", finLitTail]

/-- The byte content of `generated_report.html`. -/
def generate_html_content (name date : String) (salary expenses savings savings_percentage : ℚ) :
    String :=
  String.join (generate_html_chunks name date salary expenses savings savings_percentage)

/-- Observable outcome of one run of `script.py`'s `main` (lines 517-586):
process exit code, the lines printed to stdout and stderr, and the files
written with their contents. -/
structure ScriptOutcome where
  exitCode : ℕ
  stdoutLines : List String
  stderrLines : List String
  files : List (String × String)

/-- Embedding of `script.py`'s `main` (lines 517-586).  `argparse` has
already produced the four ints and the `cta_left` string (restricted by
`choices` to "true"/"false"); `ts_log` and `ts_html` are the two
`datetime.now()` readings taken inside `create_log_file` and
`create_html_file`. -/
def script_main (user_messages ai_responses validation_errors : ℤ) (cta_left : String)
    (session_time : ℤ) (ts_log ts_html : String) : ScriptOutcome :=
  let cta_left_bool := pyLower cta_left == "true"
  let v := validate_inputs (.int user_messages) (.int ai_responses)
    (.int validation_errors) (.bool cta_left_bool) (.int session_time)
  if v.1 = false then
    { exitCode := 1, stdoutLines := [], stderrLines := ["ERROR: " ++ v.2], files := [] }
  else
    let error_rate := calculate_error_rate validation_errors user_messages
    let status := determine_status error_rate cta_left_bool
    { exitCode := 0
      stdoutLines := ["Report generated successfully:", "  - log.txt", "  - result.html"]
      stderrLines := []
      files := [("log.txt", create_log_content user_messages ai_responses validation_errors
                  cta_left_bool session_time error_rate status ts_log),
                ("result.html", create_html_content user_messages ai_responses validation_errors
                  cta_left_bool session_time error_rate status ts_html)] }

/-- Observable outcome of one run of `financial_report.py`'s `__main__`
block (lines 137-169): exit code, stdout, stderr, the report files
written by `open(...)`, the lines appended to `process.log` by the
`logging` module, and the values of the `savings` and
`savings_percentage` locals (`none` when validation fails). -/
structure FinOutcome where
  exitCode : ℕ
  stdoutLines : List String
  stderrLines : List String
  files : List (String × String)
  logLines : List String
  savingsVal : Option ℚ
  savingsPctVal : Option ℚ

/-- Embedding of `financial_report.py`'s `__main__` block (lines 137-169)
together with `generate_html` (lines 13-135).  A raised `ValueError` is
caught by the `except` block, which logs the error and prints the reason
to stdout (plain `print`, not stderr) before `sys.exit(1)`. -/
def financial_main (name date : String) (salary expenses : ℚ) : FinOutcome :=
  let startLog := "Starting process for user: " ++ name ++ ", date: " ++ date
  if salary ≤ 0 then
    { exitCode := 1, stdoutLines := ["Error: " ++ "Salary must be a positive number."],
      stderrLines := [], files := [],
      logLines := [startLog, "An error occurred: " ++ "Salary must be a positive number."],
      savingsVal := none, savingsPctVal := none }
  else if expenses < 0 then
    { exitCode := 1, stdoutLines := ["Error: " ++ "Expenses cannot be negative."],
      stderrLines := [], files := [],
      logLines := [startLog, "An error occurred: " ++ "Expenses cannot be negative."],
      savingsVal := none, savingsPctVal := none }
  else if salary < expenses then
    let error_msg := "Expenses ($" ++ pyFloatStr expenses ++ ") are higher than salary ($" ++
      pyFloatStr salary ++ ")!"
    { exitCode := 1, stdoutLines := ["Error: " ++ error_msg],
      stderrLines := [], files := [],
      logLines := [startLog, error_msg, "An error occurred: " ++ error_msg],
      savingsVal := none, savingsPctVal := none }
  else
    let savings := salary - expenses
    let savings_percentage := savings / salary * 100
    { exitCode := 0
      stdoutLines := ["HTML Report generated successfully: generated_report.html"]
      stderrLines := []
      files := [("generated_report.html",
                 generate_html_content name date salary expenses savings savings_percentage)]
      logLines := [startLog,
                   "Calculation finished. Savings: " ++ pyFloatStr savings ++ ", Percentage: " ++
                     pyFloatStr savings_percentage ++ "%",
                   "HTML Report generated successfully at generated_report.html."]
      savingsVal := some savings
      savingsPctVal := some savings_percentage }

/-- First-violation semantics over an ordered list of (constraint holds,
violation message) pairs: the message of the first constraint that fails,
or acceptance if all hold. -/
def firstViolation : List (Bool × String) → Bool × String
  | [] => (true, "")
  | (ok, msg) :: rest => if ok then firstViolation rest else (false, msg)

/-- The constraint sequence of the session validator in the order the code
actually checks it: the four integer type checks, then nonnegativity of
`user_messages`, `ai_responses`, `validation_errors`, then the four
1,000,000 upper bounds, then the two cross-field constraints, then
`session_time > 0`, then the `cta_left` boolean membership check. -/
def sessionCheckSequence (user_messages ai_responses validation_errors cta_left session_time : PyVal) :
    List (Bool × String) :=
  [ (user_messages.isIntLike, "user_messages must be an integer"),
    (ai_responses.isIntLike, "ai_responses must be an integer"),
    (validation_errors.isIntLike, "validation_errors must be an integer"),
    (session_time.isIntLike, "session_time must be an integer"),
    (decide (0 ≤ user_messages.asIntD), "user_messages must be >= 0"),
    (decide (0 ≤ ai_responses.asIntD), "ai_responses must be >= 0"),
    (decide (0 ≤ validation_errors.asIntD), "validation_errors must be >= 0"),
    (decide (user_messages.asIntD ≤ MAX_REASONABLE), "user_messages must be <= 1000000"),
    (decide (ai_responses.asIntD ≤ MAX_REASONABLE), "ai_responses must be <= 1000000"),
    (decide (validation_errors.asIntD ≤ MAX_REASONABLE), "validation_errors must be <= 1000000"),
    (decide (session_time.asIntD ≤ MAX_REASONABLE), "session_time must be <= 1000000"),
    (decide (ai_responses.asIntD ≤ user_messages.asIntD), "ai_responses must be <= user_messages"),
    (decide (validation_errors.asIntD ≤ user_messages.asIntD), "validation_errors must be <= user_messages"),
    (decide (0 < session_time.asIntD), "session_time must be > 0"),
    (pyEq cta_left (.bool true) || pyEq cta_left (.bool false), "cta_left must be true or false") ]

set_option maxHeartbeats 4000000 in
/-- The if/else chain of `validate_inputs` equals first-violation
semantics over the non-type checks, in the code's order. -/
lemma chain_eq_firstViolation (um ar ve st : ℤ) (cta : PyVal) :
    (if um < 0 then ((false, "user_messages must be >= 0") : Bool × String)
      else if ar < 0 then (false, "ai_responses must be >= 0")
      else if ve < 0 then (false, "validation_errors must be >= 0")
      else if um > MAX_REASONABLE then (false, "user_messages must be <= 1000000")
      else if ar > MAX_REASONABLE then (false, "ai_responses must be <= 1000000")
      else if ve > MAX_REASONABLE then (false, "validation_errors must be <= 1000000")
      else if st > MAX_REASONABLE then (false, "session_time must be <= 1000000")
      else if ar > um then (false, "ai_responses must be <= user_messages")
      else if ve > um then (false, "validation_errors must be <= user_messages")
      else if st ≤ 0 then (false, "session_time must be > 0")
      else if !(pyEq cta (.bool true) || pyEq cta (.bool false)) then
        (false, "cta_left must be true or false")
      else (true, "")) =
    firstViolation
      [ (decide (0 ≤ um), "user_messages must be >= 0"),
        (decide (0 ≤ ar), "ai_responses must be >= 0"),
        (decide (0 ≤ ve), "validation_errors must be >= 0"),
        (decide (um ≤ MAX_REASONABLE), "user_messages must be <= 1000000"),
        (decide (ar ≤ MAX_REASONABLE), "ai_responses must be <= 1000000"),
        (decide (ve ≤ MAX_REASONABLE), "validation_errors must be <= 1000000"),
        (decide (st ≤ MAX_REASONABLE), "session_time must be <= 1000000"),
        (decide (ar ≤ um), "ai_responses must be <= user_messages"),
        (decide (ve ≤ um), "validation_errors must be <= user_messages"),
        (decide (0 < st), "session_time must be > 0"),
        (pyEq cta (.bool true) || pyEq cta (.bool false), "cta_left must be true or false") ] := by
  by_cases h1 : um < 0
  · simp [firstViolation, h1, show ¬ (0 ≤ um) from by omega]
  by_cases h2 : ar < 0
  · simp [firstViolation, h1, h2, show 0 ≤ um from by omega, show ¬ (0 ≤ ar) from by omega]
  by_cases h3 : ve < 0
  · simp [firstViolation, h1, h2, h3, show 0 ≤ um from by omega, show 0 ≤ ar from by omega,
      show ¬ (0 ≤ ve) from by omega]
  by_cases h4 : um > MAX_REASONABLE
  · simp [firstViolation, h1, h2, h3, h4, show 0 ≤ um from by omega, show 0 ≤ ar from by omega,
      show 0 ≤ ve from by omega, show ¬ (um ≤ MAX_REASONABLE) from by omega]
  by_cases h5 : ar > MAX_REASONABLE
  · simp [firstViolation, h1, h2, h3, h4, h5, show 0 ≤ um from by omega,
      show 0 ≤ ar from by omega, show 0 ≤ ve from by omega,
      show um ≤ MAX_REASONABLE from by omega, show ¬ (ar ≤ MAX_REASONABLE) from by omega]
  by_cases h6 : ve > MAX_REASONABLE
  · simp [firstViolation, h1, h2, h3, h4, h5, h6, show 0 ≤ um from by omega,
      show 0 ≤ ar from by omega, show 0 ≤ ve from by omega,
      show um ≤ MAX_REASONABLE from by omega, show ar ≤ MAX_REASONABLE from by omega,
      show ¬ (ve ≤ MAX_REASONABLE) from by omega]
  by_cases h7 : st > MAX_REASONABLE
  · simp [firstViolation, h1, h2, h3, h4, h5, h6, h7, show 0 ≤ um from by omega,
      show 0 ≤ ar from by omega, show 0 ≤ ve from by omega,
      show um ≤ MAX_REASONABLE from by omega, show ar ≤ MAX_REASONABLE from by omega,
      show ve ≤ MAX_REASONABLE from by omega, show ¬ (st ≤ MAX_REASONABLE) from by omega]
  by_cases h8 : ar > um
  · simp [firstViolation, h1, h2, h3, h4, h5, h6, h7, h8, show 0 ≤ um from by omega,
      show 0 ≤ ar from by omega, show 0 ≤ ve from by omega,
      show um ≤ MAX_REASONABLE from by omega, show ar ≤ MAX_REASONABLE from by omega,
      show ve ≤ MAX_REASONABLE from by omega, show st ≤ MAX_REASONABLE from by omega,
      show ¬ (ar ≤ um) from by omega]
  by_cases h9 : ve > um
  · simp [firstViolation, h1, h2, h3, h4, h5, h6, h7, h8, h9, show 0 ≤ um from by omega,
      show 0 ≤ ar from by omega, show 0 ≤ ve from by omega,
      show um ≤ MAX_REASONABLE from by omega, show ar ≤ MAX_REASONABLE from by omega,
      show ve ≤ MAX_REASONABLE from by omega, show st ≤ MAX_REASONABLE from by omega,
      show ar ≤ um from by omega, show ¬ (ve ≤ um) from by omega]
  by_cases h10 : st ≤ 0
  · simp [firstViolation, h1, h2, h3, h4, h5, h6, h7, h8, h9, h10, show 0 ≤ um from by omega,
      show 0 ≤ ar from by omega, show 0 ≤ ve from by omega,
      show um ≤ MAX_REASONABLE from by omega, show ar ≤ MAX_REASONABLE from by omega,
      show ve ≤ MAX_REASONABLE from by omega, show st ≤ MAX_REASONABLE from by omega,
      show ar ≤ um from by omega, show ve ≤ um from by omega, show ¬ (0 < st) from by omega]
  cases hb : (pyEq cta (.bool true) || pyEq cta (.bool false)) <;>
    simp [firstViolation, h1, h2, h3, h4, h5, h6, h7, h8, h9, h10, hb,
      show 0 ≤ um from by omega, show 0 ≤ ar from by omega, show 0 ≤ ve from by omega,
      show um ≤ MAX_REASONABLE from by omega, show ar ≤ MAX_REASONABLE from by omega,
      show ve ≤ MAX_REASONABLE from by omega, show st ≤ MAX_REASONABLE from by omega,
      show ar ≤ um from by omega, show ve ≤ um from by omega, show 0 < st from by omega]

/-- C1 (amended): `validate_inputs` returns the first violated
constraint's message, but in the order the code checks: integer type
checks, then nonnegativity, then the 1,000,000 upper bounds, then the
cross-field constraints, then `session_time > 0`, then the boolean check
on `cta_left` — upper-bound checks come before cross-field checks, not
after them. -/
theorem validate_inputs_check_order (um ar ve cta st : PyVal) :
    validate_inputs um ar ve cta st = firstViolation (sessionCheckSequence um ar ve cta st) := by
  cases um <;> cases ar <;> cases ve <;> cases st <;>
    first
      | rfl
      | exact chain_eq_firstViolation _ _ _ _ _

/-- C1 (counterexample): the input `userMessages = 0`,
`aiResponses = 1000001`, `validationErrors = 0`, `ctaLeft = True`,
`sessionTimeMinutes = 5` violates both the cross-field constraint
`aiResponses ≤ userMessages` (since `1000001 > 0`) and the 1,000,000
upper bound, yet `validate_inputs` reports the upper-bound message, not
the cross-field message the claimed order would give. -/
theorem validate_inputs_order_counterexample :
    validate_inputs (.int 0) (.int 1000001) (.int 0) (.bool true) (.int 5) =
      (false, "ai_responses must be <= 1000000") ∧
    (1000001 : ℤ) > 0 ∧
    "ai_responses must be <= 1000000" ≠ "ai_responses must be <= user_messages" :=
  ⟨by decide, by decide, by decide⟩

/-- C2: for every error rate `r` and boolean `ctaLeft`, the status string
returned by `determine_status` is the base status, "Problematic" exactly
when `r > 0.3` (strictly, independently of `ctaLeft`) and "OK" otherwise,
with the suffix " (CTA left)" appended after the base exactly when
`ctaLeft` is true. -/
theorem determine_status_spec (r : ℚ) (c : Bool) :
    determine_status r c =
      (if r > 3/10 then "Problematic" else "OK") ++ (if c then " (CTA left)" else "") := by
  cases c <;> simp [determine_status, String.append_empty]

/-- Reduction of `financial_main` on accepted inputs to the success
record of its final branch. -/
lemma financial_main_success (name date : String) (salary expenses : ℚ)
    (h1 : 0 < salary) (h2 : 0 ≤ expenses) (h3 : expenses ≤ salary) :
    financial_main name date salary expenses =
      { exitCode := 0
        stdoutLines := ["HTML Report generated successfully: generated_report.html"]
        stderrLines := []
        files := [("generated_report.html", generate_html_content name date salary expenses
          (salary - expenses) ((salary - expenses) / salary * 100))]
        logLines := ["Starting process for user: " ++ name ++ ", date: " ++ date,
          "Calculation finished. Savings: " ++ pyFloatStr (salary - expenses) ++
            ", Percentage: " ++ pyFloatStr ((salary - expenses) / salary * 100) ++ "%",
          "HTML Report generated successfully at generated_report.html."]
        savingsVal := some (salary - expenses)
        savingsPctVal := some ((salary - expenses) / salary * 100) } := by
  rw [financial_main, if_neg (not_le.mpr h1), if_neg (not_lt.mpr h2), if_neg (not_lt.mpr h3)]

/-- C3: for every session input that passes `validate_inputs`,
`calculate_error_rate` returns `validationErrors / userMessages`, returns
exactly `0` when `userMessages = 0` (and does so for every
`validationErrors` value), and its result lies in `[0, 1]`. -/
theorem calculate_error_rate_spec (um ar ve st : ℤ) (c : Bool)
    (h : (validate_inputs (.int um) (.int ar) (.int ve) (.bool c) (.int st)).1 = true) :
    (um = 0 → calculate_error_rate ve um = 0) ∧
    (um ≠ 0 → calculate_error_rate ve um = (ve : ℚ) / (um : ℚ)) ∧
    (∀ v : ℤ, calculate_error_rate v 0 = 0) ∧
    0 ≤ calculate_error_rate ve um ∧ calculate_error_rate ve um ≤ 1 := by
  obtain ⟨hum, -, hve, -, -, -, -, -, hveum, -⟩ := (validate_ints_accept_iff um ar ve st c).mp h
  refine ⟨fun h0 => by simp [calculate_error_rate, h0],
    fun h0 => by simp [calculate_error_rate, h0],
    fun v => by simp [calculate_error_rate], ?_, ?_⟩
  all_goals by_cases h0 : um = 0
  · simp [calculate_error_rate, h0]
  · have hpos : (0 : ℚ) < (um : ℚ) := by
      exact_mod_cast lt_of_le_of_ne hum (Ne.symm h0)
    simp only [calculate_error_rate, if_neg h0]
    exact div_nonneg (by exact_mod_cast hve) (le_of_lt hpos)
  · simp [calculate_error_rate, h0]
  · have hpos : (0 : ℚ) < (um : ℚ) := by
      exact_mod_cast lt_of_le_of_ne hum (Ne.symm h0)
    simp only [calculate_error_rate, if_neg h0]
    exact (div_le_one hpos).mpr (by exact_mod_cast hveum)

/-- Witness for C3 at the concrete valid input (10, 5, 3, False, 20). -/
theorem calculate_error_rate_spec_witness :
    (validate_inputs (.int 10) (.int 5) (.int 3) (.bool false) (.int 20)).1 = true ∧
    0 ≤ calculate_error_rate 3 10 ∧ calculate_error_rate 3 10 ≤ 1 :=
  ⟨by decide, (calculate_error_rate_spec 10 5 3 20 false (by decide)).2.2.2⟩

/-- C4: every financial input with `income > 0`, `expenses ≥ 0` and
`expenses ≤ income` is accepted (including the boundary
`expenses = income`, which yields savings `0` and percentage `0`), with
`savings = income - expenses` exactly and
`savingsPercentage = 100 * savings / income`. -/
theorem financial_pipeline_accepts (name date : String) (salary expenses : ℚ)
    (h1 : 0 < salary) (h2 : 0 ≤ expenses) (h3 : expenses ≤ salary) :
    (financial_main name date salary expenses).exitCode = 0 ∧
    (financial_main name date salary expenses).savingsVal = some (salary - expenses) ∧
    (financial_main name date salary expenses).savingsPctVal =
      some (100 * (salary - expenses) / salary) ∧
    (expenses = salary →
      (financial_main name date salary expenses).savingsVal = some 0 ∧
      (financial_main name date salary expenses).savingsPctVal = some 0) := by
  rw [financial_main_success name date salary expenses h1 h2 h3]
  refine ⟨rfl, rfl, ?_, ?_⟩
  · have h : (salary - expenses) / salary * 100 = 100 * (salary - expenses) / salary := by ring
    simp only [h]
  · intro he
    subst he
    constructor
    · simp
    · simp

/-- Witness for C4 at the spec's example income 5000, expenses 3500. -/
theorem financial_pipeline_accepts_witness :
    (financial_main "Or" "2024-01-01" 5000 3500).exitCode = 0 ∧
    (financial_main "Or" "2024-01-01" 5000 3500).savingsVal = some 1500 ∧
    (financial_main "Or" "2024-01-01" 5000 3500).savingsPctVal = some 30 := by
  have h := financial_pipeline_accepts "Or" "2024-01-01" 5000 3500
    (by norm_num) (by norm_num) (by norm_num)
  refine ⟨h.1, ?_, ?_⟩
  · rw [h.2.1]; norm_num
  · rw [h.2.2.1]; norm_num

/-- C6: with every other constraint satisfied, `validate_inputs` accepts
the boundary `aiResponses = userMessages` and rejects
`aiResponses = userMessages + 1` with the message naming the
`userMessages` bound. -/
theorem validate_boundary_ai_responses (um ve st : ℤ) (c : Bool)
    (h1 : 0 ≤ um) (h2 : um + 1 ≤ 1000000) (h3 : 0 ≤ ve) (h4 : ve ≤ um)
    (h5 : 0 < st) (h6 : st ≤ 1000000) :
    validate_inputs (.int um) (.int um) (.int ve) (.bool c) (.int st) = (true, "") ∧
    validate_inputs (.int um) (.int (um + 1)) (.int ve) (.bool c) (.int st) =
      (false, "ai_responses must be <= user_messages") := by
  constructor
  · rw [validate_inputs_int]
    simp [ctaCheck_bool, MAX_REASONABLE, show ¬ (um < 0) from by omega,
      show ¬ (ve < 0) from by omega, show ¬ (um > 1000000) from by omega,
      show ¬ (ve > 1000000) from by omega, show ¬ (st > 1000000) from by omega,
      show ¬ (um > um) from by omega, show ¬ (ve > um) from by omega,
      show ¬ (st ≤ 0) from by omega]
  · rw [validate_inputs_int]
    simp [MAX_REASONABLE, show ¬ (um < 0) from by omega, show ¬ (um + 1 < 0) from by omega,
      show ¬ (ve < 0) from by omega, show ¬ (um > 1000000) from by omega,
      show ¬ (um + 1 > 1000000) from by omega, show ¬ (ve > 1000000) from by omega,
      show ¬ (st > 1000000) from by omega, show um + 1 > um from by omega]

/-- Witness for C6 at the concrete input `userMessages = 5`. -/
theorem validate_boundary_ai_responses_witness :
    validate_inputs (.int 5) (.int 5) (.int 2) (.bool true) (.int 10) = (true, "") ∧
    validate_inputs (.int 5) (.int 6) (.int 2) (.bool true) (.int 10) =
      (false, "ai_responses must be <= user_messages") := by
  have h := validate_boundary_ai_responses 5 2 10 true
    (by decide) (by decide) (by decide) (by decide) (by decide) (by decide)
  exact ⟨h.1, by simpa using h.2⟩

/-- C7: a non-integer scalar (a float or a string — in Python anything
failing `isinstance(x, int)`) in an integer-declared field makes
`validate_inputs` return the type-error message naming that field (the
first such field, the checks running in declaration order), and a float
is such a value even when numerically integral. -/
theorem type_check_naming (um ar ve cta st : PyVal) :
    (um.asInt? = none →
      validate_inputs um ar ve cta st = (false, "user_messages must be an integer")) ∧
    (um.asInt?.isSome → ar.asInt? = none →
      validate_inputs um ar ve cta st = (false, "ai_responses must be an integer")) ∧
    (um.asInt?.isSome → ar.asInt?.isSome → ve.asInt? = none →
      validate_inputs um ar ve cta st = (false, "validation_errors must be an integer")) ∧
    (um.asInt?.isSome → ar.asInt?.isSome → ve.asInt?.isSome → st.asInt? = none →
      validate_inputs um ar ve cta st = (false, "session_time must be an integer")) ∧
    (∀ q : ℚ, (PyVal.float q).asInt? = none) := by
  refine ⟨?_, ?_, ?_, ?_, fun q => rfl⟩
  · intro h
    simp only [validate_inputs, h]
  · intro h1 h2
    obtain ⟨n1, hn1⟩ := Option.isSome_iff_exists.mp h1
    simp only [validate_inputs, hn1, h2]
  · intro h1 h2 h3
    obtain ⟨n1, hn1⟩ := Option.isSome_iff_exists.mp h1
    obtain ⟨n2, hn2⟩ := Option.isSome_iff_exists.mp h2
    simp only [validate_inputs, hn1, hn2, h3]
  · intro h1 h2 h3 h4
    obtain ⟨n1, hn1⟩ := Option.isSome_iff_exists.mp h1
    obtain ⟨n2, hn2⟩ := Option.isSome_iff_exists.mp h2
    obtain ⟨n3, hn3⟩ := Option.isSome_iff_exists.mp h3
    simp only [validate_inputs, hn1, hn2, hn3, h4]

/-- Witness for C7: the float `5.0`, numerically equal to the integer 5,
is rejected for `user_messages` with the type-error message. -/
theorem type_check_naming_witness :
    (PyVal.float 5).asInt? = none ∧
    validate_inputs (.float 5) (.int 0) (.int 0) (.bool true) (.int 5) =
      (false, "user_messages must be an integer") :=
  ⟨rfl, (type_check_naming (.float 5) (.int 0) (.int 0) (.bool true) (.int 5)).1 rfl⟩

/-- C10: `validate_inputs` does not separate Python bools from ints: a
bool in an integer-declared field passes the `isinstance` check and is
processed as 1 or 0 (so `userMessages = True` with `aiResponses = 1` is
accepted while `userMessages = False` with `aiResponses = 1` fails the
cross-field check), and the ints 1 and 0 pass the `cta_left` boolean
membership check because `1 == True` and `0 == False`. -/
theorem bool_int_conflation :
    (∀ b : Bool, (PyVal.bool b).asInt? = some (if b then 1 else 0)) ∧
    (∀ (b : Bool) (ar ve cta st : PyVal),
      validate_inputs (.bool b) ar ve cta st =
        validate_inputs (.int (if b then 1 else 0)) ar ve cta st) ∧
    pyEq (.int 1) (.bool true) = true ∧
    pyEq (.int 0) (.bool false) = true ∧
    validate_inputs (.bool true) (.int 1) (.int 0) (.bool false) (.int 5) = (true, "") ∧
    validate_inputs (.bool false) (.int 1) (.int 0) (.bool false) (.int 5) =
      (false, "ai_responses must be <= user_messages") ∧
    validate_inputs (.int 10) (.int 5) (.int 2) (.int 1) (.int 30) = (true, "") ∧
    validate_inputs (.int 10) (.int 5) (.int 2) (.int 0) (.int 30) = (true, "") :=
  ⟨fun _ => rfl, fun b _ _ _ _ => by cases b <;> rfl,
    by decide, by decide, by decide, by decide, by decide, by decide⟩

/-- Reduction of `financial_main` when the salary check fails. -/
lemma financial_main_fail_salary (name date : String) (salary expenses : ℚ)
    (h : salary ≤ 0) :
    financial_main name date salary expenses =
      { exitCode := 1, stdoutLines := ["Error: " ++ "Salary must be a positive number."],
        stderrLines := [], files := [],
        logLines := ["Starting process for user: " ++ name ++ ", date: " ++ date,
          "An error occurred: " ++ "Salary must be a positive number."],
        savingsVal := none, savingsPctVal := none } := by
  rw [financial_main, if_pos h]

/-- Reduction of `financial_main` when the expenses nonnegativity check fails. -/
lemma financial_main_fail_expenses (name date : String) (salary expenses : ℚ)
    (h1 : ¬ salary ≤ 0) (h2 : expenses < 0) :
    financial_main name date salary expenses =
      { exitCode := 1, stdoutLines := ["Error: " ++ "Expenses cannot be negative."],
        stderrLines := [], files := [],
        logLines := ["Starting process for user: " ++ name ++ ", date: " ++ date,
          "An error occurred: " ++ "Expenses cannot be negative."],
        savingsVal := none, savingsPctVal := none } := by
  rw [financial_main, if_neg h1, if_pos h2]

/-- Reduction of `financial_main` when expenses exceed the salary. -/
lemma financial_main_fail_exceeds (name date : String) (salary expenses : ℚ)
    (h1 : ¬ salary ≤ 0) (h2 : ¬ expenses < 0) (h3 : salary < expenses) :
    financial_main name date salary expenses =
      { exitCode := 1,
        stdoutLines := ["Error: " ++ ("Expenses ($" ++ pyFloatStr expenses ++
          ") are higher than salary ($" ++ pyFloatStr salary ++ ")!")],
        stderrLines := [], files := [],
        logLines := ["Starting process for user: " ++ name ++ ", date: " ++ date,
          "Expenses ($" ++ pyFloatStr expenses ++ ") are higher than salary ($" ++
            pyFloatStr salary ++ ")!",
          "An error occurred: " ++ ("Expenses ($" ++ pyFloatStr expenses ++
            ") are higher than salary ($" ++ pyFloatStr salary ++ ")!")],
        savingsVal := none, savingsPctVal := none } := by
  rw [financial_main, if_neg h1, if_neg h2, if_pos h3]

/-- Reduction of `script_main` when validation fails. -/
lemma script_main_fail (um ar ve : ℤ) (cta : String) (st : ℤ) (t1 t2 : String)
    (h : (validate_inputs (.int um) (.int ar) (.int ve)
      (.bool (pyLower cta == "true")) (.int st)).1 = false) :
    script_main um ar ve cta st t1 t2 =
      { exitCode := 1, stdoutLines := [],
        stderrLines := ["ERROR: " ++ (validate_inputs (.int um) (.int ar) (.int ve)
          (.bool (pyLower cta == "true")) (.int st)).2],
        files := [] } := by
  simp only [script_main, h, if_pos]

/-- C5 (amended): on every input that fails validation both variants exit
with code 1 and write no report file, and the run stops before the
report-writing steps; but only the session variant prints the reason to
the error stream — the financial variant prints it to standard output
(its stderr stays empty) and its `logging` setup has already appended
lines to the `process.log` log file. -/
theorem validation_failure_streams (um ar ve : ℤ) (cta : String) (st : ℤ) (t1 t2 : String)
    (name date : String) (salary expenses : ℚ)
    (hs : (validate_inputs (.int um) (.int ar) (.int ve)
      (.bool (pyLower cta == "true")) (.int st)).1 = false)
    (hf : salary ≤ 0 ∨ expenses < 0 ∨ salary < expenses) :
    (script_main um ar ve cta st t1 t2).exitCode = 1 ∧
    (script_main um ar ve cta st t1 t2).stderrLines =
      ["ERROR: " ++ (validate_inputs (.int um) (.int ar) (.int ve)
        (.bool (pyLower cta == "true")) (.int st)).2] ∧
    (script_main um ar ve cta st t1 t2).files = [] ∧
    (script_main um ar ve cta st t1 t2).stdoutLines = [] ∧
    (financial_main name date salary expenses).exitCode = 1 ∧
    (financial_main name date salary expenses).files = [] ∧
    (financial_main name date salary expenses).stderrLines = [] ∧
    (∃ reason, (financial_main name date salary expenses).stdoutLines =
      ["Error: " ++ reason]) ∧
    (financial_main name date salary expenses).logLines ≠ [] := by
  rw [script_main_fail um ar ve cta st t1 t2 hs]
  refine ⟨rfl, rfl, rfl, rfl, ?_⟩
  by_cases ha : salary ≤ 0
  · rw [financial_main_fail_salary name date salary expenses ha]
    exact ⟨rfl, rfl, rfl, ⟨_, rfl⟩, by simp⟩
  · by_cases hb : expenses < 0
    · rw [financial_main_fail_expenses name date salary expenses ha hb]
      exact ⟨rfl, rfl, rfl, ⟨_, rfl⟩, by simp⟩
    · have hc : salary < expenses := by
        rcases hf with h | h | h
        · exact absurd h ha
        · exact absurd h hb
        · exact h
      rw [financial_main_fail_exceeds name date salary expenses ha hb hc]
      exact ⟨rfl, rfl, rfl, ⟨_, rfl⟩, by simp⟩

/-- C5 (counterexample): at the spec's own rejection scenario
income 1000, expenses 1200, the financial variant exits with code 1 but
its stderr is empty (the reason goes to stdout) and the `logging` module
has written lines to the `process.log` log file, contradicting "the
failure reason is printed to the error stream, and no report/log output
files are written" for this variant. -/
theorem validation_failure_streams_counterexample :
    (financial_main "A" "2024-01-01" 1000 1200).exitCode = 1 ∧
    (financial_main "A" "2024-01-01" 1000 1200).stderrLines = [] ∧
    (financial_main "A" "2024-01-01" 1000 1200).stdoutLines =
      ["Error: " ++ ("Expenses ($" ++ pyFloatStr 1200 ++ ") are higher than salary ($" ++
        pyFloatStr 1000 ++ ")!")] ∧
    (financial_main "A" "2024-01-01" 1000 1200).logLines ≠ [] := by
  rw [financial_main_fail_exceeds "A" "2024-01-01" 1000 1200
    (by norm_num) (by norm_num) (by norm_num)]
  exact ⟨rfl, rfl, rfl, by simp⟩

/-- Witness for C5 (amended) at a session input with negative
`user_messages` and a financial input with negative salary. -/
theorem validation_failure_streams_witness :
    (script_main (-1) 0 0 "true" 5 "T1" "T2").exitCode = 1 ∧
    (script_main (-1) 0 0 "true" 5 "T1" "T2").files = [] ∧
    (financial_main "A" "2024-01-01" (-5) 100).exitCode = 1 ∧
    (financial_main "A" "2024-01-01" (-5) 100).files = [] := by
  have h := validation_failure_streams (-1) 0 0 "true" 5 "T1" "T2" "A" "2024-01-01" (-5) 100
    (by decide) (Or.inl (by norm_num))
  exact ⟨h.1, h.2.2.1, h.2.2.2.2.1, h.2.2.2.2.2.1⟩

/-- C8: running the session pipeline twice on identical valid inputs
changes nothing but the timestamp chunk: each rendered document is a
fixed fragment list with the timestamp spliced into one position, all
other fragments depending only on the inputs; the financial document
reads no clock at all, so two runs on identical inputs are literally the
same value in this pure embedding. -/
theorem pipeline_two_run_determinism (um ar ve : ℤ) (cta : Bool) (st : ℤ) (er : ℚ)
    (status : String) (name date : String) (salary expenses savings pct : ℚ) :
    (∃ pre post : List String, ∀ ts : String,
      create_log_chunks um ar ve cta st er status ts = pre ++ ts :: post) ∧
    (∃ pre post : List String, ∀ ts : String,
      create_html_chunks um ar ve cta st er status ts = pre ++ ts :: post) ∧
    generate_html_chunks name date salary expenses savings pct =
      generate_html_chunks name date salary expenses savings pct := by
  refine ⟨⟨["Chat Session Report\nGenerated: "], _, fun ts => rfl⟩,
    ⟨[sessionLitHead, status_color status, sessionLitPostColor], _, fun ts => rfl⟩, rfl⟩

/-- A natural number below 10 renders as a single character. -/
lemma toString_digit_len (m : ℕ) (h : m < 10) : (toString m).length = 1 := by
  interval_cases m <;> rfl

/-- The groups produced by `chunksOf3` concatenate back to the input:
comma grouping separates the digits without altering them. -/
lemma chunksOf3_join : ∀ l : List Char, (chunksOf3 l).flatten = l
  | [] => rfl
  | [a] => rfl
  | [a, b] => rfl
  | a :: b :: c :: rest => by
      have ih := chunksOf3_join rest
      show ([a, b, c] :: chunksOf3 rest).flatten = a :: b :: c :: rest
      simp [ih]

/-- Every group produced by `chunksOf3` is nonempty with at most three
characters. -/
lemma chunksOf3_groups : ∀ l : List Char, ∀ g ∈ chunksOf3 l, g ≠ [] ∧ g.length ≤ 3
  | [] => by
      intro g hg
      simp [show chunksOf3 ([] : List Char) = [] from rfl] at hg
  | [a] => by
      intro g hg
      rw [show chunksOf3 [a] = [[a]] from rfl] at hg
      simp at hg
      subst hg
      simp
  | [a, b] => by
      intro g hg
      rw [show chunksOf3 [a, b] = [[a, b]] from rfl] at hg
      simp at hg
      subst hg
      simp
  | a :: b :: c :: rest => by
      intro g hg
      rw [show chunksOf3 (a :: b :: c :: rest) = [a, b, c] :: chunksOf3 rest from rfl] at hg
      rcases List.mem_cons.mp hg with rfl | hg'
      · simp
      · exact chunksOf3_groups rest g hg'

/-- C9: the rendered documents interpolate the currency values (income,
expenses, savings) through the thousands-separated two-decimal format,
the financial savings percentage through the one-decimal format directly
followed by a literal "%", and the session error rate through the
two-decimal percentage format, in both the log and the HTML report; and
those formats have the claimed shape: two fractional digits (one for the
percentage), a comma-grouped integer part whose groups of at most three
digits concatenate back to the plain digit string, and a trailing "%" on
the session percentage. -/
theorem render_formats (name date : String) (salary expenses savings pct : ℚ)
    (um ar ve st : ℤ) (cta : Bool) (er : ℚ) (status ts : String) :
    fmtComma2 salary ∈ generate_html_chunks name date salary expenses savings pct ∧
    fmtComma2 expenses ∈ generate_html_chunks name date salary expenses savings pct ∧
    fmtComma2 savings ∈ generate_html_chunks name date salary expenses savings pct ∧
    (∃ l1 l2 : List String, generate_html_chunks name date salary expenses savings pct =
      l1 ++ [fmtFixed1 pct, "%"] ++ l2) ∧
    fmtPct2 er ∈ create_log_chunks um ar ve cta st er status ts ∧
    fmtPct2 er ∈ create_html_chunks um ar ve cta st er status ts ∧
    (∀ q : ℚ, ∃ d : String, fmtComma2 q =
      (if q < 0 then "-" else "") ++
        commaGroup (toString ((roundHalfEven (|q| * 100)).toNat / 100)) ++ "." ++ d ∧
      d.length = 2) ∧
    (∀ q : ℚ, ∃ g d : String, fmtFixed1 q = g ++ "." ++ d ∧ d.length = 1) ∧
    (∀ q : ℚ, ∃ g d : String, fmtPct2 q = (g ++ "." ++ d) ++ "%" ∧ d.length = 2) ∧
    (∀ l : List Char, (chunksOf3 l).flatten = l) ∧
    (∀ l : List Char, ∀ g ∈ chunksOf3 l, g ≠ [] ∧ g.length ≤ 3) := by
  refine ⟨by simp [generate_html_chunks], by simp [generate_html_chunks],
    by simp [generate_html_chunks],
    ⟨[finLitHead, name, finLitAfterTitle, name, finLitAfterName, date, finLitAfterDate,
      fmtComma2 salary, finLitAfterIncome, fmtComma2 expenses, finLitAfterExpenses,
      fmtComma2 savings, finLitAfterSavings], [finLitTail], rfl⟩,
    by simp [create_log_chunks], by simp [create_html_chunks], ?_, ?_, ?_,
    chunksOf3_join, chunksOf3_groups⟩
  · intro q
    refine ⟨toString ((roundHalfEven (|q| * 100)).toNat / 10 % 10) ++
      toString ((roundHalfEven (|q| * 100)).toNat % 10), rfl, ?_⟩
    rw [String.length_append, toString_digit_len _ (Nat.mod_lt _ (by norm_num)),
      toString_digit_len _ (Nat.mod_lt _ (by norm_num))]
  · intro q
    refine ⟨(if q < 0 then "-" else "") ++ toString ((roundHalfEven (|q| * 10)).toNat / 10),
      toString ((roundHalfEven (|q| * 10)).toNat % 10), rfl, ?_⟩
    exact toString_digit_len _ (Nat.mod_lt _ (by norm_num))
  · intro q
    refine ⟨(if q * 100 < 0 then "-" else "") ++
      toString ((roundHalfEven (|q * 100| * 100)).toNat / 100),
      toString ((roundHalfEven (|q * 100| * 100)).toNat / 10 % 10) ++
        toString ((roundHalfEven (|q * 100| * 100)).toNat % 10), rfl, ?_⟩
    rw [String.length_append, toString_digit_len _ (Nat.mod_lt _ (by norm_num)),
      toString_digit_len _ (Nat.mod_lt _ (by norm_num))]

/-- Witness for C9: the session error rate 2/5 appears in the log chunk
list through the two-decimal percentage format. -/
theorem render_formats_witness :
    fmtPct2 (2/5) ∈ create_log_chunks 100 80 40 true 30 (2/5) "Problematic (CTA left)" "TS" :=
  (render_formats "N" "D" 0 0 0 0 100 80 40 30 true (2/5)
    "Problematic (CTA left)" "TS").2.2.2.2.1
